import Mathlib

/-!
Verification development for the `spritestory` FastAPI application
(`main.py`).  The repository's Python code is shallowly embedded: pure
helpers become Lean functions, the stdlib pieces the code calls into
(file reads, subprocesses, `json.loads`, `time.time`, `datetime.now`)
are modelled as explicit environment values, Python `try/except: pass`
blocks become `Option`-valued computations whose failure leaves the
partially mutated state in place, Python floats are modelled as exact
rationals, and mutable module state (the TTL-cache closures, the cron
history deque) is modelled by explicit state passing.
-/

/-! ### Python string primitives used by `main.py` -/

/-- Model of Python `str.strip()`: drop ASCII whitespace from both ends. -/
def pyStrip (s : String) : String :=
  String.mk (((s.data.dropWhile Char.isWhitespace).reverse.dropWhile Char.isWhitespace).reverse)

/-- Split a character list at every separator position, keeping empty
fields (the behaviour of Python `str.split(sep)`). -/
def splitCharsBy (p : Char → Bool) : List Char → List (List Char)
  | [] => [[]]
  | c :: cs =>
    let r := splitCharsBy p cs
    if p c then [] :: r
    else
      match r with
      | [] => [[c]]
      | w :: ws => (c :: w) :: ws

/-- Model of Python `str.split()` with no arguments: split on runs of
whitespace, returning no empty fields. -/
def pySplitWs (s : String) : List String :=
  ((splitCharsBy Char.isWhitespace s.data).map String.mk).filter (fun t => t ≠ "")

/-- Model of Python `s.split(sep)` for a single-character separator:
empty fields are kept (this is how `main.py` splits stdout into lines). -/
def pySplitChar (s : String) (c : Char) : List String :=
  (splitCharsBy (fun d => d = c) s.data).map String.mk

/-- Auxiliary recursion for `pySplitNoneMax`, with explicit fuel.  The
input is assumed to have no leading whitespace; each step removes at
least one character, so fuel `cs.length` is always sufficient. -/
def pySplitNoneMaxGo : Nat → Nat → List Char → List String
  | _, _, [] => []
  | 0, _, cs => [String.mk cs]
  | _ + 1, 0, cs => [String.mk cs]
  | fuel + 1, maxsplit + 1, cs =>
      let w := cs.takeWhile (fun c => !c.isWhitespace)
      let rest := ((cs.dropWhile (fun c => !c.isWhitespace)).dropWhile Char.isWhitespace)
      String.mk w :: pySplitNoneMaxGo fuel maxsplit rest

/-- Model of Python `s.split(None, maxsplit)`: leading whitespace is
skipped, then at most `maxsplit` whitespace-separated fields are split
off and the remainder (trailing whitespace included) is the final
field. -/
def pySplitNoneMax (maxsplit : Nat) (s : String) : List String :=
  pySplitNoneMaxGo (s.data.length + 1) maxsplit (s.data.dropWhile Char.isWhitespace)

/-- Model of the Python slice `s[:n]`. -/
def pySliceTo (s : String) (n : Nat) : String :=
  String.mk (s.data.take n)

/-- Model of `s.rstrip(c)` for a single-character argument (used as
`parts[0].rstrip(':')` in `/proc/meminfo` parsing). -/
def pyRstripChar (s : String) (c : Char) : String :=
  String.mk ((s.data.reverse.dropWhile (fun d => d = c)).reverse)

/-- Character-list prefix test (needle, haystack). -/
def charsPrefix : List Char → List Char → Bool
  | [], _ => true
  | _ :: _, [] => false
  | a :: as, b :: bs => a = b && charsPrefix as bs

/-- Substring occurrence test, modelling Python `needle in haystack`
for strings. -/
def strHas (needle hay : List Char) : Bool :=
  match hay with
  | [] => needle.isEmpty
  | _ :: t => charsPrefix needle hay || strHas needle t

/-- Model of Python `c in s` for a single character. -/
def pyCharIn (c : Char) (s : String) : Bool :=
  s.data.contains c

/-! ### Python numeric literals: `int(...)` and `float(...)` -/

/-- Parse a nonempty run of decimal digits. -/
def parseDigits : List Char → Option Nat
  | [] => none
  | cs =>
    if cs.all Char.isDigit then
      some (cs.foldl (fun acc c => acc * 10 + (c.toNat - 48)) 0)
    else none

/-- Model of Python `int(s)` on whitespace-free tokens: optional sign
followed by decimal digits; anything else raises `ValueError`,
modelled as `none`. -/
def pyInt (s : String) : Option Int :=
  match s.data with
  | '-' :: rest => (parseDigits rest).map (fun n => -(n : Int))
  | '+' :: rest => (parseDigits rest).map (fun n => (n : Int))
  | cs => (parseDigits cs).map (fun n => (n : Int))

/-- Parse the unsigned part of a float literal: `digits`, `digits.`,
`.digits` or `digits.digits`, as an exact rational. -/
def parseFloatBody (cs : List Char) : Option ℚ :=
  match cs.span (fun c => c ≠ '.') with
  | (intPart, []) => (parseDigits intPart).map (fun n => (n : ℚ))
  | (intPart, _ :: fracPart) =>
    match intPart, fracPart with
    | [], [] => none
    | [], f =>
      (parseDigits f).map (fun n => (n : ℚ) / ((10 : ℚ) ^ f.length))
    | i, [] => (parseDigits i).map (fun n => (n : ℚ))
    | i, f =>
      match parseDigits i, parseDigits f with
      | some ni, some nf => some ((ni : ℚ) + (nf : ℚ) / ((10 : ℚ) ^ f.length))
      | _, _ => none

/-- Model of Python `float(s)` on whitespace-free decimal tokens
(optional sign, digits with an optional decimal point); exponents,
`inf` and `nan` never occur in `/proc/loadavg` or `/proc/uptime` and
are modelled as failures. -/
def pyFloat (s : String) : Option ℚ :=
  match s.data with
  | '-' :: rest => (parseFloatBody rest).map (fun q => -q)
  | '+' :: rest => parseFloatBody rest
  | cs => parseFloatBody cs

/-! ### The warm-pool grid (`generate_warm_pool_grid`, main.py 267-281) -/

/-- The "active" cell div emitted by `generate_warm_pool_grid`. -/
def activeNode : String := "<div class=\"node active\">C</div>"

/-- The "rogue" cell div emitted for isolated nodes. -/
def rogueNode : String := "<div class=\"node rogue\">!</div>"

/-- The blue-styled "weak" cell div. -/
def weakNode : String := "<div class=\"node\" style=\"background: #61afef; color: #000;\">?</div>"

/-- The node list built by `generate_warm_pool_grid` before shuffling:
`active = total - isolated - weak` copies of the active cell, then the
rogue cells, then the weak cells. -/
def warmPoolNodes (total isolated weak : Nat) : List String :=
  List.replicate (total - isolated - weak) activeNode ++
    List.replicate isolated rogueNode ++
    List.replicate weak weakNode

/-- Model of `generate_warm_pool_grid`: `random.shuffle` is modelled by
quantifying over every permutation of `warmPoolNodes`, and the returned
grid is `''.join(...)` of the shuffled list. -/
def generate_warm_pool_grid (shuffled : List String) : String :=
  String.join shuffled

/-! ### Model of `datetime` values and their formatting -/

/-- A `datetime.datetime` value as used by `main.py` (naive local
time); only the fields that reach output formatting are modelled. -/
structure PyDatetime where
  year : Nat
  month : Nat
  day : Nat
  hour : Nat
  minute : Nat
  second : Nat
  microsecond : Nat
deriving DecidableEq, Repr

/-- Decimal digit character for `n % 10`. -/
def digitChar (n : Nat) : Char :=
  Char.ofNat (48 + n % 10)

/-- Zero-padded two-digit rendering (`%02d`) for values below 100. -/
def pad2 (n : Nat) : List Char :=
  [digitChar (n / 10), digitChar n]

/-- Zero-padded four-digit rendering (`%04d`) for values below 10000. -/
def pad4 (n : Nat) : List Char :=
  [digitChar (n / 1000), digitChar (n / 100), digitChar (n / 10), digitChar n]

/-- Zero-padded six-digit rendering (`%06d`) for values below 1000000. -/
def pad6 (n : Nat) : List Char :=
  [digitChar (n / 100000), digitChar (n / 10000), digitChar (n / 1000),
   digitChar (n / 100), digitChar (n / 10), digitChar n]

/-- Model of `datetime.isoformat()`: `YYYY-MM-DDTHH:MM:SS` with a
`.ffffff` microsecond suffix exactly when the microsecond field is
nonzero (CPython's documented behaviour). -/
def isoformat (d : PyDatetime) : String :=
  String.mk (pad4 d.year ++ ['-'] ++ pad2 d.month ++ ['-'] ++ pad2 d.day ++ ['T'] ++
    pad2 d.hour ++ [':'] ++ pad2 d.minute ++ [':'] ++ pad2 d.second ++
    (if d.microsecond ≠ 0 then '.' :: pad6 d.microsecond else []))

/-- Model of `now.strftime('%Y-%m-%d %H:%M:%S')`. -/
def strftimeYmdHMS (d : PyDatetime) : String :=
  String.mk (pad4 d.year ++ ['-'] ++ pad2 d.month ++ ['-'] ++ pad2 d.day ++ [' '] ++
    pad2 d.hour ++ [':'] ++ pad2 d.minute ++ [':'] ++ pad2 d.second)

/-- Checker for the ISO-8601 extended combined date-time format
produced by `datetime.isoformat`: `YYYY-MM-DDTHH:MM:SS` optionally
followed by `.ffffff`. -/
def isValidISO8601 (s : String) : Bool :=
  match s.data with
  | [y1, y2, y3, y4, '-', m1, m2, '-', d1, d2, 'T',
     h1, h2, ':', n1, n2, ':', s1, s2] =>
      [y1, y2, y3, y4, m1, m2, d1, d2, h1, h2, n1, n2, s1, s2].all Char.isDigit
  | [y1, y2, y3, y4, '-', m1, m2, '-', d1, d2, 'T',
     h1, h2, ':', n1, n2, ':', s1, s2, '.', u1, u2, u3, u4, u5, u6] =>
      [y1, y2, y3, y4, m1, m2, d1, d2, h1, h2, n1, n2, s1, s2,
       u1, u2, u3, u4, u5, u6].all Char.isDigit
  | _ => false

/-! ### The `/health` endpoint (main.py 3199-3201) -/

/-- Response payload of `GET /health`.  The handler returns a plain
dict, so the field set below is exactly the JSON object's key set. -/
structure HealthResponse where
  status : String
  timestamp : String
  instances_aware : Nat
deriving DecidableEq, Repr

/-- Model of the `health` handler: `datetime.now()` is the environment
input `now`. -/
def health (now : PyDatetime) : HealthResponse :=
  { status := "ok", timestamp := isoformat now, instances_aware := 790471 }

/-- HTTP status code FastAPI attaches to a handler that returns a
plain dict without raising; the `health` handler is total, so every
call completes with this code. -/
def fastapiDefaultStatus : Nat := 200

/-! ### The TTL cache decorator (`ttl_cache`, main.py 61-73)

The decorator's closure dictionary `{"value": None, "expires": 0}` is
the state below; `time.time()` is the explicit `now` argument, and the
wrapped function's fresh result is the explicit `compute` argument
(the wrapped helpers take no arguments, so one result value per call
suffices).  The wrapper returns `(value, expires - now)`. -/

/-- Closure state of one `ttl_cache` wrapper. -/
structure CacheState (α : Type) where
  value : Option α
  expires : ℚ
deriving Repr

/-- The initial closure state: `{"value": None, "expires": 0}`. -/
def initCache (α : Type) : CacheState α := { value := none, expires := 0 }

/-- Result of one wrapped call: the returned pair, the new closure
state, and whether the underlying function was invoked. -/
structure TtlResult (α : Type) where
  value : α
  ttl : ℚ
  state : CacheState α
  recomputed : Bool
deriving Repr

/-- One call of a `ttl_cache(seconds)`-wrapped function at time `now`,
where `compute` is what the underlying function would return on this
call: recompute iff the slot is empty or `now > expires`, then return
`(value, expires - now)`. -/
def ttlStep (seconds : ℚ) (compute : α) (st : CacheState α) (now : ℚ) : TtlResult α :=
  if st.value.isNone = true ∨ st.expires < now then
    { value := compute
      ttl := (now + seconds) - now
      state := { value := some compute, expires := now + seconds }
      recomputed := true }
  else
    { value := st.value.getD compute
      ttl := st.expires - now
      state := st
      recomputed := false }

/-! ### Python `round(x, 1)` (used on the TTL fields of `/info/json`) -/

/-- Round-half-to-even to the nearest integer, as Python's `round`
does. -/
def roundHalfEven (q : ℚ) : ℤ :=
  if q - ⌊q⌋ < 1/2 then ⌊q⌋
  else if 1/2 < q - ⌊q⌋ then ⌊q⌋ + 1
  else if Even ⌊q⌋ then ⌊q⌋ else ⌊q⌋ + 1

/-- Model of Python `round(x, 1)` on exact rationals. -/
def pyRound1 (q : ℚ) : ℚ :=
  (roundHalfEven (10 * q) : ℚ) / 10

/-! ### The cron scheduler state (main.py 22-36, 2920-2965)

`cron_history["heartbeat"]` is a `deque(maxlen=50)` and
`cron_stats["heartbeat"]` a dict of counters; both are plain module
globals mutated by `heartbeat_job`, modelled as an explicit state
record.  `datetime.now()` inside the job is the explicit argument. -/

/-- One run record appended to the heartbeat history deque. -/
structure CronRecord where
  time : String
  message : String
deriving DecidableEq, Repr

/-- The record `heartbeat_job` builds from `datetime.now()`. -/
def heartbeatRecord (now : PyDatetime) : CronRecord :=
  { time := isoformat now
    message := "[" ++ strftimeYmdHMS now ++ "] Heartbeat pulse - system alive" }

/-- Append to a `deque(maxlen=n)`: the new element goes to the right
and elements are discarded from the left until at most `n` remain. -/
def dequeAppend (maxlen : Nat) (d : List α) (x : α) : List α :=
  let d' := d ++ [x]
  if maxlen < d'.length then d'.drop (d'.length - maxlen) else d'

/-- Combined state of `cron_history["heartbeat"]` and
`cron_stats["heartbeat"]`. -/
structure CronState where
  history : List CronRecord
  runs : Nat
  last_run : Option String
  next_run : Option String
deriving Repr

/-- The module-initialisation state: empty deque, zero runs. -/
def initCronState : CronState :=
  { history := [], runs := 0, last_run := none, next_run := none }

/-- Model of one `heartbeat_job()` invocation at wall-clock time
`now`. -/
def heartbeat_job (now : PyDatetime) (st : CronState) : CronState :=
  { st with
    history := dequeAppend 50 st.history (heartbeatRecord now)
    runs := st.runs + 1
    last_run := some (isoformat now) }

/-- The state after a sequence of `heartbeat_job` invocations at the
given times, from the module-initial state. -/
def runHeartbeats (times : List PyDatetime) : CronState :=
  times.foldl (fun st now => heartbeat_job now st) initCronState

/-! ### The `/cron` page history (main.py 2953-2962) -/

/-- `all_history.sort(key=lambda x: x["time"], reverse=True)`: CPython
`list.sort` is a stable sort; with `reverse=True` it orders by key
descending while keeping the original order of equal keys, which is a
stable merge sort under the relation below. -/
def cronSortDesc (l : List CronRecord) : List CronRecord :=
  l.mergeSort (fun a b => decide (b.time ≤ a.time))

/-- The run records the `/cron` page displays: the full history of
every job (only `heartbeat` exists) sorted newest-first, truncated to
20 entries (`all_history[:20]`). -/
def cronDisplayedHistory (hist : List CronRecord) : List CronRecord :=
  (cronSortDesc hist).take 20

/-- The history log markup built from the displayed records. -/
def cronHistoryHtml (hist : List CronRecord) : String :=
  String.join ((cronDisplayedHistory hist).map
    (fun e => "<div class=\"log-line\">" ++ e.message ++ "</div>"))

/-- The metadata of the single registered job as displayed by the
job card on `/cron` (name, schedule, total runs, last run, next run). -/
structure JobCard where
  name : String
  schedule : String
  runs : Nat
  last_run : String
  next_run : String
deriving Repr

/-- Model of `ts[:19].replace("T", " ")` applied to an optional ISO
timestamp, with the page's fallback text. -/
def cronTimeDisplay (ts : Option String) (fallback : String) : String :=
  match ts with
  | some t => String.mk ((t.data.take 19).map (fun c => if c = 'T' then ' ' else c))
  | none => fallback

/-- The job card the `/cron` page builds for the heartbeat job
(main.py 2930-2951); the scheduler-side name and trigger string are
environment inputs. -/
def cronJobCard (jobName trigger : String) (st : CronState) : JobCard :=
  { name := jobName
    schedule := trigger
    runs := st.runs
    last_run := cronTimeDisplay st.last_run "Never"
    next_run := cronTimeDisplay st.next_run "Unknown" }

/-! ### A model of parsed JSON values

`json.loads` / `json.load` are CPython stdlib; their outcome (a parsed
value, or a raised exception) is supplied by the environment, and the
repository's code only routes the values around. -/

/-- Values produced by `json.loads`. -/
inductive PyJson where
  | null : PyJson
  | bool (b : Bool) : PyJson
  | num (q : ℚ) : PyJson
  | str (s : String) : PyJson
  | arr (l : List PyJson) : PyJson
  | obj (l : List (String × PyJson)) : PyJson

mutual

/-- Structural equality of JSON values (Python `==` on `json.loads`
output, up to Python's numeric-type coercions, which never arise
here). -/
def pyJsonBeq : PyJson → PyJson → Bool
  | .null, .null => true
  | .bool a, .bool b => a == b
  | .num a, .num b => a == b
  | .str a, .str b => a == b
  | .arr a, .arr b => pyJsonListBeq a b
  | .obj a, .obj b => pyJsonObjBeq a b
  | _, _ => false

/-- Elementwise equality of JSON arrays. -/
def pyJsonListBeq : List PyJson → List PyJson → Bool
  | [], [] => true
  | x :: xs, y :: ys => pyJsonBeq x y && pyJsonListBeq xs ys
  | _, _ => false

/-- Entrywise equality of JSON objects. -/
def pyJsonObjBeq : List (String × PyJson) → List (String × PyJson) → Bool
  | [], [] => true
  | (k1, v1) :: xs, (k2, v2) :: ys => k1 == k2 && pyJsonBeq v1 v2 && pyJsonObjBeq xs ys
  | _, _ => false

end

/-- Python dict with arbitrary (JSON-valued) keys, in insertion
order.  Lookup takes the first matching binding. -/
def PyDict : Type := List (PyJson × PyJson)

/-- Dict assignment `d[k] = v`: overwrite in place if the key exists,
else append (CPython insertion-order semantics). -/
def dictInsert (d : PyDict) (k v : PyJson) : PyDict :=
  match d with
  | [] => [(k, v)]
  | (k', v') :: rest =>
    if pyJsonBeq k' k then (k, v) :: rest else (k', v') :: dictInsert rest k v

/-- Whether a value may be used as a dict key (`list` and `dict` are
unhashable and raise `TypeError`). -/
def pyHashable : PyJson → Bool
  | .arr _ => false
  | .obj _ => false
  | _ => true

/-- Lookup in a JSON object (string keys). -/
def objLookup (o : List (String × PyJson)) (k : String) : Option PyJson :=
  match o with
  | [] => none
  | (k', v) :: rest => if k' = k then some v else objLookup rest k

/-! ### `get_sprite_info` (main.py 95-141)

Each `try` block's external interaction is one environment field:
`none` models a raised exception (missing file or binary, timeout,
`json` parse error).  Subprocess fields carry the return code and the
`json.loads` outcome on the captured stdout. -/

/-- External world as seen by one `get_sprite_info` call. -/
structure SpriteEnv where
  version_txt : Option String
  services_run : Option (Int × Option PyJson)
  checkpoints_run : Option (Int × Option PyJson)
  network_policy_file : Option (Option PyJson)

/-- The dictionary `get_sprite_info` returns. -/
structure SpriteInfo where
  version : String
  services : PyJson
  checkpoints : PyJson
  network_policy : PyJson

/-- The defaults set up at the top of `get_sprite_info`. -/
def spriteDefaults : SpriteInfo :=
  { version := "unknown"
    services := .arr []
    checkpoints := .arr []
    network_policy := .obj [("rules", .arr [])] }

/-- One `sprite-env ... list` try block: the field is replaced only
when the subprocess ran, exited 0 and its stdout parsed. -/
def spriteRunField (run : Option (Int × Option PyJson)) (dflt : PyJson) : PyJson :=
  match run with
  | some (rc, some j) => if rc = 0 then j else dflt
  | _ => dflt

/-- Model of `get_sprite_info` (the underlying function, before the
`ttl_cache` wrapper). -/
def get_sprite_info (env : SpriteEnv) : SpriteInfo :=
  let s := spriteDefaults
  let s := match env.version_txt with
    | some txt => { s with version := pyStrip txt }
    | none => s
  let s := { s with services := spriteRunField env.services_run s.services }
  let s := { s with checkpoints := spriteRunField env.checkpoints_run s.checkpoints }
  let s := match env.network_policy_file with
    | some (some j) => { s with network_policy := j }
    | _ => s
  s

/-! ### `get_fastfetch_info` (main.py 144-162) -/

/-- Python `for item in data`: lists yield elements, dicts yield their
keys, strings yield one-character strings; other values raise
`TypeError` (caught by the enclosing `try`). -/
def ffIterable : PyJson → Option (List PyJson)
  | .arr l => some l
  | .obj o => some (o.map (fun kv => .str kv.1))
  | .str s => some (s.data.map (fun c => .str (String.mk [c])))
  | _ => none

/-- Python `"result" in item` for a JSON value: key test on dicts,
membership on lists, substring test on strings, `TypeError` otherwise. -/
def ffHasResult : PyJson → Option Bool
  | .obj o => some (objLookup o "result").isSome
  | .arr l => some (l.any (fun x => pyJsonBeq x (.str "result")))
  | .str s => some (strHas "result".data s.data)
  | _ => none

/-- One loop iteration of `get_fastfetch_info`: `none` is a raised
exception, `some none` skips the item, `some (some (k, v))` assigns
`info[item["type"]] = item["result"]`. -/
def ffStep (item : PyJson) : Option (Option (PyJson × PyJson)) :=
  match ffHasResult item with
  | none => none
  | some false => some none
  | some true =>
    match item with
    | .obj o =>
      match objLookup o "type" with
      | some t => some (some (t, (objLookup o "result").getD .null))
      | none => none
    | _ => none

/-- The `for item in data` loop building `info`; aborts (`none`) on
the first raised exception, including assignment with an unhashable
key. -/
def ffBuild : List PyJson → PyDict → Option PyDict
  | [], info => some info
  | item :: rest, info =>
    match ffStep item with
    | none => none
    | some none => ffBuild rest info
    | some (some (k, v)) =>
      if pyHashable k then ffBuild rest (dictInsert info k v) else none

/-- Model of `get_fastfetch_info` (underlying function): the
environment is the `fastfetch --format json` subprocess outcome;
every failure path returns the empty dict. -/
def get_fastfetch_info (run : Option (Int × Option PyJson)) : PyDict :=
  match run with
  | some (rc, some j) =>
    if rc = 0 then
      match ffIterable j with
      | some items => (ffBuild items []).getD []
      | none => []
    else []
  | _ => []

/-! ### `get_htop_data` (main.py 165-264)

Each of the four `try` blocks becomes a function from the partially
built `data` dict to its successor; a raised exception (`none` in the
environment, or a failed `int()`/`float()` parse) leaves whatever the
block had already written in place, exactly like `except: pass`. -/

/-- An entry of `data["cpu_bars"]`. -/
structure CpuBar where
  core : Nat
  usage : ℚ
deriving DecidableEq, Repr

/-- `data["memory"]` / `data["swap"]`. -/
structure MemStats where
  used : ℚ
  total : ℚ
  pct : ℚ
deriving DecidableEq, Repr

/-- `data["tasks"]`. -/
structure TaskStats where
  total : Nat
  running : Nat
  sleeping : Nat
deriving DecidableEq, Repr

/-- An entry of `data["processes"]`. -/
structure ProcEntry where
  pid : String
  user : String
  cpu : String
  mem : String
  time : String
  cmd : String
deriving DecidableEq, Repr

/-- The dict `get_htop_data` returns. -/
structure HtopData where
  cpu_bars : List CpuBar
  memory : MemStats
  swap : MemStats
  tasks : TaskStats
  load_avg : List ℚ
  uptime : String
  processes : List ProcEntry
deriving DecidableEq, Repr

/-- The defaults `get_htop_data` starts from. -/
def htopDefaults : HtopData :=
  { cpu_bars := []
    memory := { used := 0, total := 0, pct := 0 }
    swap := { used := 0, total := 0, pct := 0 }
    tasks := { total := 0, running := 0, sleeping := 0 }
    load_avg := [0, 0, 0]
    uptime := ""
    processes := [] }

/-- External world as seen by one `get_htop_data` call: each field is
the text obtained from the corresponding subprocess/file, or `none`
when obtaining it raised. -/
structure HtopEnv where
  cpu_stat_run : Option String
  meminfo_file : Option String
  loadavg_file : Option String
  uptime_file : Option String
  ps_run : Option String

/-- `result.stdout.strip().split('\n')[1:]` for the `/proc/stat`
pipeline (the first line is the aggregate `cpu` line). -/
def cpuLines (stdout : String) : List String :=
  (pySplitChar (pyStrip stdout) '\n').drop 1

/-- Outcome of one iteration of the per-core loop. -/
inductive CpuLineStep where
  | abort : CpuLineStep
  | skip : CpuLineStep
  | bar (b : CpuBar) : CpuLineStep

/-- One iteration of `for i, line in enumerate(cpu_lines[:8])`: lines
with fewer than 5 fields are skipped, a failing `int()` raises (which
aborts the whole block), and otherwise the guarded usage percentage is
appended. -/
def cpuLineStep (i : Nat) (line : String) : CpuLineStep :=
  let parts := pySplitWs line
  if parts.length ≥ 5 then
    match pyInt (parts.getD 1 ""), pyInt (parts.getD 2 ""),
          pyInt (parts.getD 3 ""), pyInt (parts.getD 4 "") with
    | some user, some nice, some system, some idle =>
      let total : ℤ := user + nice + system + idle
      let usage : ℚ :=
        if total ≠ 0 then ((user + nice + system : ℤ) : ℚ) / (total : ℚ) * 100 else 0
      .bar { core := i, usage := usage }
    | _, _, _, _ => .abort
  else .skip

/-- The per-core loop, accumulating into `data["cpu_bars"]`; on abort
the bars appended so far are kept. -/
def cpuLoop : List (Nat × String) → List CpuBar → List CpuBar
  | [], acc => acc
  | (i, line) :: rest, acc =>
    match cpuLineStep i line with
    | .abort => acc
    | .skip => cpuLoop rest acc
    | .bar b => cpuLoop rest (acc ++ [b])

/-- The first `try` block of `get_htop_data` (CPU usage per core). -/
def htopCpuBlock (run : Option String) (d : HtopData) : HtopData :=
  match run with
  | none => d
  | some stdout =>
    { d with cpu_bars := cpuLoop ((cpuLines stdout).take 8).enum d.cpu_bars }

/-- The `for line in f` loop building the `meminfo` dict; a failing
`int()` raises, discarding the whole block.  New bindings are
prepended, so first-match lookup sees the latest assignment. -/
def meminfoLoop : List String → List (String × Int) → Option (List (String × Int))
  | [], acc => some acc
  | line :: rest, acc =>
    let parts := pySplitWs line
    if parts.length ≥ 2 then
      match pyInt (parts.getD 1 "") with
      | some v => meminfoLoop rest ((pyRstripChar (parts.getD 0 "") ':', v) :: acc)
      | none => none
    else meminfoLoop rest acc

/-- `meminfo.get(k, dflt)`. -/
def memGet (m : List (String × Int)) (k : String) (dflt : Int) : Int :=
  match m with
  | [] => dflt
  | (k', v) :: rest => if k' = k then v else memGet rest k dflt

/-- The second `try` block of `get_htop_data` (memory and swap from
`/proc/meminfo`). -/
def htopMemBlock (file : Option String) (d : HtopData) : HtopData :=
  match file with
  | none => d
  | some content =>
    match meminfoLoop (pySplitChar content '\n') [] with
    | none => d
    | some m =>
      let mem_total : ℚ := (memGet m "MemTotal" 0 : ℚ) / 1024
      let mem_free : ℚ := (memGet m "MemAvailable" (memGet m "MemFree" 0) : ℚ) / 1024
      let mem_used : ℚ := mem_total - mem_free
      let d := { d with memory :=
        { used := mem_used
          total := mem_total
          pct := if mem_total ≠ 0 then mem_used / mem_total * 100 else 0 } }
      let swap_total : ℚ := (memGet m "SwapTotal" 0 : ℚ) / 1024
      let swap_free : ℚ := (memGet m "SwapFree" 0 : ℚ) / 1024
      let swap_used : ℚ := swap_total - swap_free
      { d with swap :=
        { used := swap_used
          total := swap_total
          pct := if swap_total ≠ 0 then swap_used / swap_total * 100 else 0 } }

/-- `f"{hours}:{mins:02d}"` built from the uptime seconds: Python `//`
on floats is `floor`, `%` has the divisor's sign, and `int()` on the
already-integral results is the identity. -/
def formatUptime (us : ℚ) : String :=
  let hours : ℤ := ⌊us / 3600⌋
  let rem : ℚ := us - 3600 * (⌊us / 3600⌋ : ℚ)
  let mins : ℤ := ⌊rem / 60⌋
  toString hours ++ ":" ++ String.mk (pad2 mins.toNat)

/-- The third `try` block of `get_htop_data` (`/proc/loadavg`, then
`/proc/uptime`): a failure while reading or parsing uptime still keeps
the already-assigned `load_avg`. -/
def htopLoadBlock (loadavg uptime : Option String) (d : HtopData) : HtopData :=
  match loadavg with
  | none => d
  | some la =>
    let parts := pySplitWs la
    match pyFloat (parts.getD 0 ""), pyFloat (parts.getD 1 ""), pyFloat (parts.getD 2 "") with
    | some l0, some l1, some l2 =>
      let d := { d with load_avg := [l0, l1, l2] }
      match uptime with
      | none => d
      | some ut =>
        match pyFloat ((pySplitWs ut).getD 0 "") with
        | some us => { d with uptime := formatUptime us }
        | none => d
    | _, _, _ => d

/-- `result.stdout.strip().split('\n')` for `ps aux --sort=-%cpu`. -/
def psLines (stdout : String) : List String :=
  pySplitChar (pyStrip stdout) '\n'

/-- The process record appended for one `ps` line. -/
def procEntryOfParts (parts : List String) : ProcEntry :=
  { pid := parts.getD 1 ""
    user := pySliceTo (parts.getD 0 "") 8
    cpu := parts.getD 2 ""
    mem := parts.getD 3 ""
    time := parts.getD 9 ""
    cmd := if parts.length > 10 then pySliceTo (parts.getD 10 "") 50 else "" }

/-- The `for line in lines[1:]` loop of the `ps` block, threading the
`running`/`sleeping` counters and `data["processes"]`. -/
def psLoop : List String → Nat → Nat → List ProcEntry → Nat × Nat × List ProcEntry
  | [], running, sleeping, procs => (running, sleeping, procs)
  | line :: rest, running, sleeping, procs =>
    let parts := pySplitNoneMax 10 line
    if parts.length ≥ 11 then
      let stat := parts.getD 7 ""
      let running' := if pyCharIn 'R' stat then running + 1 else running
      let sleeping' := if pyCharIn 'R' stat then sleeping else sleeping + 1
      let procs' := if procs.length < 12 then procs ++ [procEntryOfParts parts] else procs
      psLoop rest running' sleeping' procs'
    else psLoop rest running sleeping procs

/-- The fourth `try` block of `get_htop_data` (process list and task
counts). -/
def htopPsBlock (run : Option String) (d : HtopData) : HtopData :=
  match run with
  | none => d
  | some stdout =>
    let lines := psLines stdout
    let r := psLoop (lines.drop 1) 0 0 d.processes
    { d with
      processes := r.2.2
      tasks := { total := lines.length - 1, running := r.1, sleeping := r.2.1 } }

/-- Model of `get_htop_data` (underlying function): the four blocks
applied in program order to the default dict. -/
def get_htop_data (env : HtopEnv) : HtopData :=
  htopPsBlock env.ps_run
    (htopLoadBlock env.loadavg_file env.uptime_file
      (htopMemBlock env.meminfo_file
        (htopCpuBlock env.cpu_stat_run htopDefaults)))

/-! ### The `/info/json` cache fields (main.py 2900-2917) -/

/-- The `"cache"` object of the `/info/json` response. -/
structure InfoCacheFields where
  ttl_seconds : ℚ
  sprite_ttl_remaining : ℚ
  fastfetch_ttl_remaining : ℚ
  htop_ttl_remaining : ℚ
deriving DecidableEq, Repr

/-- The three `ttl_cache` closure states alive in the process. -/
structure InfoCaches where
  sprite : CacheState SpriteInfo
  fastfetch : CacheState PyDict
  htop : CacheState HtopData

/-- Closure states at module import time. -/
def initInfoCaches : InfoCaches :=
  { sprite := initCache SpriteInfo
    fastfetch := initCache PyDict
    htop := initCache HtopData }

/-- One `GET /info/json` call, restricted to its `"cache"` object: the
three wrapped helpers run in order (each reading `time.time()` as
`tS`, `tF`, `tH`), and each remaining TTL is reported through
`round(x, 1)`. -/
def info_json_cache (spriteEnv : SpriteEnv) (ffRun : Option (Int × Option PyJson))
    (htopEnv : HtopEnv) (st : InfoCaches) (tS tF tH : ℚ) :
    InfoCacheFields × InfoCaches :=
  let rs := ttlStep 300 (get_sprite_info spriteEnv) st.sprite tS
  let rf := ttlStep 300 (get_fastfetch_info ffRun) st.fastfetch tF
  let rh := ttlStep 300 (get_htop_data htopEnv) st.htop tH
  ({ ttl_seconds := 300
     sprite_ttl_remaining := pyRound1 rs.ttl
     fastfetch_ttl_remaining := pyRound1 rf.ttl
     htop_ttl_remaining := pyRound1 rh.ttl },
   { sprite := rs.state, fastfetch := rf.state, htop := rh.state })

/-- Invariant relating a `ttl_cache(300)` closure state to the time
`t` of the last wrapped call (or `0` before any call): the stored
expiry never exceeds `t + 300`.  It holds initially and is preserved
by `ttlStep` whenever `time.time()` is nondecreasing. -/
def cacheWF (st : CacheState α) (t : ℚ) : Prop :=
  st.expires ≤ t + 300

/-- Boolean check, over the line list the CPU loop actually consumes,
that every `int()` that will succeed yields a nonnegative value (true
of every real `/proc/stat`). -/
def cpuStatNonneg (stdout : String) : Bool :=
  ((cpuLines stdout).take 8).all (fun line =>
    [1, 2, 3, 4].all (fun j =>
      match pyInt ((pySplitWs line).getD j "") with
      | some v => 0 ≤ v
      | none => true))

/-! ### Helper lemmas -/

theorem digitChar_isDigit (n : Nat) : (digitChar n).isDigit = true := by
  have h : n % 10 < 10 := Nat.mod_lt _ (by norm_num)
  unfold digitChar
  set m := n % 10 with hm
  interval_cases m <;> decide

theorem roundHalfEven_le (q : ℚ) : roundHalfEven q ≤ ⌊q⌋ + 1 := by
  unfold roundHalfEven
  split_ifs <;> omega

theorem le_roundHalfEven (q : ℚ) : ⌊q⌋ ≤ roundHalfEven q := by
  unfold roundHalfEven
  split_ifs <;> omega

theorem roundHalfEven_mono {a b : ℚ} (h : a ≤ b) : roundHalfEven a ≤ roundHalfEven b := by
  have hf : ⌊a⌋ ≤ ⌊b⌋ := Int.floor_mono h
  rcases lt_or_eq_of_le hf with hlt | heq
  · have h1 := roundHalfEven_le a
    have h2 := le_roundHalfEven b
    omega
  · have hfr : a - (⌊a⌋ : ℚ) ≤ b - (⌊b⌋ : ℚ) := by
      rw [heq]; linarith
    unfold roundHalfEven
    rw [heq] at *
    split_ifs <;> first | omega | linarith

theorem roundHalfEven_intCast (z : ℤ) : roundHalfEven (z : ℚ) = z := by
  unfold roundHalfEven
  rw [Int.floor_intCast]
  have hz : ((z : ℚ) - z) = 0 := by ring
  rw [hz]
  norm_num

theorem pyRound1_mono {a b : ℚ} (h : a ≤ b) : pyRound1 a ≤ pyRound1 b := by
  unfold pyRound1
  have := roundHalfEven_mono (show 10 * a ≤ 10 * b by linarith)
  have hc : ((roundHalfEven (10 * a) : ℤ) : ℚ) ≤ ((roundHalfEven (10 * b) : ℤ) : ℚ) := by
    exact_mod_cast this
  linarith

theorem pyRound1_300 : pyRound1 300 = 300 := by
  have : ((3000 : ℤ) : ℚ) = 10 * 300 := by norm_num
  unfold pyRound1
  rw [← this, roundHalfEven_intCast]
  norm_num

theorem pyRound1_nonneg {q : ℚ} (h : 0 ≤ q) : 0 ≤ pyRound1 q := by
  unfold pyRound1
  have h0 : (0 : ℤ) ≤ ⌊10 * q⌋ := Int.floor_nonneg.2 (by linarith)
  have h1 := le_roundHalfEven (10 * q)
  have hc : (0 : ℚ) ≤ ((roundHalfEven (10 * q) : ℤ) : ℚ) := by exact_mod_cast by omega
  exact div_nonneg hc (by norm_num)

theorem pyRound1_le_300 {q : ℚ} (h : q ≤ 300) : pyRound1 q ≤ 300 := by
  have := pyRound1_mono h
  rw [pyRound1_300] at this
  exact this

theorem htopCpuBlock_preserves (r : Option String) (d : HtopData) :
    (htopCpuBlock r d).memory = d.memory ∧ (htopCpuBlock r d).swap = d.swap ∧
    (htopCpuBlock r d).tasks = d.tasks ∧ (htopCpuBlock r d).load_avg = d.load_avg ∧
    (htopCpuBlock r d).uptime = d.uptime ∧ (htopCpuBlock r d).processes = d.processes := by
  unfold htopCpuBlock
  cases r <;> simp

theorem htopMemBlock_preserves (f : Option String) (d : HtopData) :
    (htopMemBlock f d).cpu_bars = d.cpu_bars ∧ (htopMemBlock f d).tasks = d.tasks ∧
    (htopMemBlock f d).load_avg = d.load_avg ∧ (htopMemBlock f d).uptime = d.uptime ∧
    (htopMemBlock f d).processes = d.processes := by
  unfold htopMemBlock
  rcases f with _ | content
  · simp
  · rcases h : meminfoLoop (pySplitChar content '\n') [] with _ | m <;> simp [h]

theorem htopLoadBlock_preserves (la ut : Option String) (d : HtopData) :
    (htopLoadBlock la ut d).cpu_bars = d.cpu_bars ∧ (htopLoadBlock la ut d).memory = d.memory ∧
    (htopLoadBlock la ut d).swap = d.swap ∧ (htopLoadBlock la ut d).tasks = d.tasks ∧
    (htopLoadBlock la ut d).processes = d.processes := by
  unfold htopLoadBlock
  repeat first
  | (split <;> try simp)
  | simp

theorem htopPsBlock_preserves (r : Option String) (d : HtopData) :
    (htopPsBlock r d).cpu_bars = d.cpu_bars ∧ (htopPsBlock r d).memory = d.memory ∧
    (htopPsBlock r d).swap = d.swap ∧ (htopPsBlock r d).load_avg = d.load_avg ∧
    (htopPsBlock r d).uptime = d.uptime := by
  unfold htopPsBlock
  cases r <;> simp

theorem cpuLoop_length (l : List (Nat × String)) (acc : List CpuBar) :
    (cpuLoop l acc).length ≤ acc.length + l.length := by
  induction l generalizing acc with
  | nil => simp [cpuLoop]
  | cons p rest ih =>
    obtain ⟨i, line⟩ := p
    unfold cpuLoop
    cases cpuLineStep i line with
    | abort => simp
    | skip => have := ih acc; simp at this ⊢; omega
    | bar b => have := ih (acc ++ [b]); simp at this ⊢; omega

theorem cpuLoop_all {P : CpuBar → Prop} (l : List (Nat × String)) (acc : List CpuBar)
    (hacc : ∀ b ∈ acc, P b)
    (hl : ∀ i line b, (i, line) ∈ l → cpuLineStep i line = .bar b → P b) :
    ∀ b ∈ cpuLoop l acc, P b := by
  induction l generalizing acc with
  | nil => simpa [cpuLoop] using hacc
  | cons p rest ih =>
    obtain ⟨i, line⟩ := p
    unfold cpuLoop
    rcases h : cpuLineStep i line with _ | _ | b
    · exact hacc
    · exact ih acc hacc (fun i' l' b' hm => hl i' l' b' (List.mem_cons_of_mem _ hm))
    · refine ih (acc ++ [b]) ?_ (fun i' l' b' hm => hl i' l' b' (List.mem_cons_of_mem _ hm))
      intro x hx
      rcases List.mem_append.1 hx with hx | hx
      · exact hacc x hx
      · rcases List.mem_singleton.1 hx with rfl
        exact hl i line x (List.mem_cons_self _ _) h

theorem psLoop_procs_le (lines : List String) (r s : Nat) (procs : List ProcEntry)
    (h : procs.length ≤ 12) : (psLoop lines r s procs).2.2.length ≤ 12 := by
  induction lines generalizing r s procs with
  | nil => simpa [psLoop]
  | cons line rest ih =>
    unfold psLoop
    by_cases hlen : (pySplitNoneMax 10 line).length ≥ 11
    · simp only [hlen, if_true]
      by_cases hp : procs.length < 12
      · simp only [hp, if_true]
        apply ih
        simp; omega
      · simp only [hp, if_false]
        exact ih _ _ _ h
    · simp only [hlen, if_false]
      exact ih _ _ _ h

theorem dequeAppend_eq_drop (n : Nat) (d : List α) (x : α) :
    dequeAppend n d x = (d ++ [x]).drop ((d.length + 1) - n) := by
  unfold dequeAppend
  by_cases h : n < (d ++ [x]).length
  · simp only [h, if_true]
    simp
  · simp only [h, if_false]
    have : (d.length + 1) - n = 0 := by simp at h; omega
    simp [this]

theorem dropWindow_append {α : Type} (h : List α) (r : α) :
    (h.drop (h.length - 50) ++ [r]).drop ((h.drop (h.length - 50)).length + 1 - 50) =
      (h ++ [r]).drop ((h.length + 1) - 50) := by
  rw [List.length_drop]
  rw [List.drop_append_of_le_length (by simp only [List.length_drop]; omega)]
  rw [List.drop_drop]
  rw [List.drop_append_of_le_length (by omega)]
  have harith : h.length - 50 + (h.length - (h.length - 50) + 1 - 50) = h.length + 1 - 50 := by
    omega
  rw [harith]

theorem heartbeat_history_drop (times : List PyDatetime) (st : CronState) (h : List CronRecord)
    (hst : st.history = h.drop (h.length - 50)) :
    (times.foldl (fun st now => heartbeat_job now st) st).history =
      (h ++ times.map heartbeatRecord).drop ((h.length + times.length) - 50) := by
  induction times generalizing st h with
  | nil => simpa using hst
  | cons t rest ih =>
    simp only [List.foldl_cons]
    have hstep : (heartbeat_job t st).history =
        (h ++ [heartbeatRecord t]).drop ((h ++ [heartbeatRecord t]).length - 50) := by
      show (dequeAppend 50 st.history (heartbeatRecord t)) = _
      rw [hst, dequeAppend_eq_drop]
      have hw := dropWindow_append h (heartbeatRecord t)
      simp only [List.length_drop] at hw ⊢
      rw [hw]
      congr 1
      simp
    have hrec := ih (heartbeat_job t st) (h ++ [heartbeatRecord t]) hstep
    rw [hrec]
    rw [List.append_assoc]
    simp only [List.singleton_append, List.map_cons, List.length_append,
      List.length_cons, List.length_singleton, List.length_map, List.length_nil]
    congr 1
    omega

/-! ### Claim theorems -/

/-- C1: for every outcome of the random shuffle, the warm-pool grid
returned by `generate_warm_pool_grid` with its default arguments is
the concatenation of exactly 255 cell divs whose multiset of classes
is 243 "active", 7 "rogue" and 5 blue-styled "weak" cells; only the
order varies. -/
theorem warm_pool_grid_multiset (l : List String) (hperm : l.Perm (warmPoolNodes 255 7 5)) :
    generate_warm_pool_grid l = String.join l ∧
    l.length = 255 ∧
    l.count activeNode = 243 ∧
    l.count rogueNode = 7 ∧
    l.count weakNode = 5 ∧
    ∀ x ∈ l, x = activeNode ∨ x = rogueNode ∨ x = weakNode := by
  have ea : (activeNode == activeNode) = true := by decide
  have era : (rogueNode == activeNode) = false := by decide
  have ewa : (weakNode == activeNode) = false := by decide
  have err : (rogueNode == rogueNode) = true := by decide
  have ear : (activeNode == rogueNode) = false := by decide
  have ewr : (weakNode == rogueNode) = false := by decide
  have eww : (weakNode == weakNode) = true := by decide
  have eaw : (activeNode == weakNode) = false := by decide
  have erw : (rogueNode == weakNode) = false := by decide
  refine ⟨rfl, ?_, ?_, ?_, ?_, ?_⟩
  · rw [hperm.length_eq]
    simp only [warmPoolNodes, List.length_append, List.length_replicate]
  · rw [hperm.count_eq]
    simp only [warmPoolNodes, List.count_append, List.count_replicate]
    simp [ea, era, ewa]
  · rw [hperm.count_eq]
    simp only [warmPoolNodes, List.count_append, List.count_replicate]
    simp [err, ear, ewr]
  · rw [hperm.count_eq]
    simp only [warmPoolNodes, List.count_append, List.count_replicate]
    simp [eww, eaw, erw]
  · intro x hx
    have hx' := hperm.mem_iff.1 hx
    simp only [warmPoolNodes, List.mem_append, List.mem_replicate] at hx'
    tauto

/-- Witness for C1: the unshuffled node list itself is one outcome of
the shuffle. -/
theorem warm_pool_grid_multiset_witness :
    generate_warm_pool_grid (warmPoolNodes 255 7 5) = String.join (warmPoolNodes 255 7 5) ∧
    (warmPoolNodes 255 7 5).length = 255 ∧
    (warmPoolNodes 255 7 5).count activeNode = 243 ∧
    (warmPoolNodes 255 7 5).count rogueNode = 7 ∧
    (warmPoolNodes 255 7 5).count weakNode = 5 ∧
    ∀ x ∈ warmPoolNodes 255 7 5, x = activeNode ∨ x = rogueNode ∨ x = weakNode :=
  warm_pool_grid_multiset _ (List.Perm.refl _)

/-- C4: after any sequence of `heartbeat_job` invocations the
heartbeat history deque holds at most 50 records, namely exactly the
most recent ones. -/
theorem cron_history_bounded (times : List PyDatetime) :
    (runHeartbeats times).history.length ≤ 50 ∧
    (runHeartbeats times).history = (times.map heartbeatRecord).drop (times.length - 50) := by
  have h := heartbeat_history_drop times initCronState [] (by simp [initCronState])
  simp only [List.nil_append, List.length_nil, Nat.zero_add] at h
  have h2 : (runHeartbeats times).history =
      (times.map heartbeatRecord).drop (times.length - 50) := h
  refine ⟨?_, h2⟩
  rw [h2]
  simp only [List.length_drop, List.length_map]
  omega

/-- C6: every `GET /health` call completes with the FastAPI default
status 200 and a payload whose keys are exactly `status`, `timestamp`
and `instances_aware`, with `status = "ok"`, the constant 790471, and
an ISO-8601 timestamp of the current time. -/
theorem health_response (now : PyDatetime) :
    (health now).status = "ok" ∧
    (health now).timestamp = isoformat now ∧
    (health now).instances_aware = 790471 ∧
    isValidISO8601 (health now).timestamp = true ∧
    fastapiDefaultStatus = 200 := by
  refine ⟨rfl, rfl, rfl, ?_, rfl⟩
  show isValidISO8601 (isoformat now) = true
  unfold isValidISO8601 isoformat pad4 pad2 pad6
  by_cases h : now.microsecond = 0
  · simp [h, digitChar_isDigit]
  · simp [h, digitChar_isDigit]

theorem ttlStep_ttl_bounds {α : Type} (c : α) (st : CacheState α) (t now : ℚ)
    (hwf : cacheWF st t) (ht : t ≤ now) :
    0 ≤ (ttlStep 300 c st now).ttl ∧ (ttlStep 300 c st now).ttl ≤ 300 ∧
    ((ttlStep 300 c st now).recomputed = true → (ttlStep 300 c st now).ttl = 300) ∧
    cacheWF (ttlStep 300 c st now).state now := by
  unfold cacheWF at hwf
  unfold ttlStep cacheWF
  split
  · refine ⟨by simp, by simp, fun _ => by simp, by simp⟩
  · rename_i h
    push_neg at h
    obtain ⟨-, hle⟩ := h
    refine ⟨by simp; linarith, by simp; linarith, by simp, by simp; linarith⟩

theorem ttlStep_recomputed_ttl {α : Type} (c : α) (st : CacheState α) (now : ℚ) :
    (ttlStep 300 c st now).recomputed = true → (ttlStep 300 c st now).ttl = 300 := by
  unfold ttlStep
  split
  · intro
    simp
  · simp

theorem ttlStep_cases {α : Type} (s : ℚ) (c : α) (st : CacheState α) (now : ℚ) :
    (¬(st.value.isNone = true ∨ st.expires < now) ∧
      ttlStep s c st now =
        { value := st.value.getD c, ttl := st.expires - now, state := st, recomputed := false }) ∨
    ((st.value.isNone = true ∨ st.expires < now) ∧
      ttlStep s c st now =
        { value := c, ttl := (now + s) - now,
          state := { value := some c, expires := now + s }, recomputed := true }) := by
  unfold ttlStep
  by_cases h : st.value.isNone = true ∨ st.expires < now
  · right
    exact ⟨h, by rw [if_pos h]⟩
  · left
    exact ⟨h, by rw [if_neg h]⟩

theorem ttlStep_ttl_antitone {α : Type} (c1 c2 : α) (st : CacheState α) (t1 t2 : ℚ)
    (h12 : t1 ≤ t2) (hne : t2 ≤ (ttlStep 300 c1 st t1).state.expires) :
    (ttlStep 300 c2 (ttlStep 300 c1 st t1).state t2).ttl ≤ (ttlStep 300 c1 st t1).ttl := by
  rcases ttlStep_cases 300 c1 st t1 with ⟨h1, e1⟩ | ⟨h1, e1⟩
  · rw [e1] at hne ⊢
    simp at hne
    push_neg at h1
    obtain ⟨hv, hle⟩ := h1
    rcases ttlStep_cases 300 c2 st t2 with ⟨h2, e2⟩ | ⟨h2, e2⟩
    · rw [e2]
      simp
      linarith
    · exfalso
      rcases h2 with h2 | h2
      · exact hv h2
      · linarith
  · rw [e1] at hne ⊢
    simp at hne
    rcases ttlStep_cases 300 c2 { value := some c1, expires := t1 + 300 } t2 with
      ⟨h2, e2⟩ | ⟨h2, e2⟩
    · rw [e2]
      simp
      linarith
    · exfalso
      rcases h2 with h2 | h2
      · simp at h2
      · simp at h2
        linarith

/-- C5: a `ttl_cache(300)`-wrapped helper whose last recomputation
happened at `t0` (so the closure holds `value = some v`,
`expires = t0 + 300`) returns the cached value without invoking the
underlying function when called within 300 seconds of `t0`, and
invokes the underlying function and stores the fresh result when
called more than 300 seconds after `t0`. -/
theorem ttl_cache_semantics {α : Type} (v fresh : α) (t0 now : ℚ) :
    (now ≤ t0 + 300 →
      ttlStep 300 fresh { value := some v, expires := t0 + 300 } now =
        { value := v, ttl := (t0 + 300) - now,
          state := { value := some v, expires := t0 + 300 }, recomputed := false }) ∧
    (t0 + 300 < now →
      ttlStep 300 fresh { value := some v, expires := t0 + 300 } now =
        { value := fresh, ttl := (now + 300) - now,
          state := { value := some fresh, expires := now + 300 }, recomputed := true }) := by
  constructor
  · intro h
    have hnlt : ¬((t0 + 300 : ℚ) < now) := not_lt.2 h
    simp [ttlStep, hnlt]
  · intro h
    simp [ttlStep, h]

/-- Witness for C5: a cache filled at time 0 serves the cached value
at time 100 and recomputes at time 400. -/
theorem ttl_cache_semantics_witness :
    (ttlStep 300 (2 : ℕ) { value := some 1, expires := (0 : ℚ) + 300 } 100 =
      { value := 1, ttl := ((0 : ℚ) + 300) - 100,
        state := { value := some 1, expires := (0 : ℚ) + 300 }, recomputed := false }) ∧
    (ttlStep 300 (2 : ℕ) { value := some 1, expires := (0 : ℚ) + 300 } 400 =
      { value := 2, ttl := ((400 : ℚ) + 300) - 400,
        state := { value := some 2, expires := (400 : ℚ) + 300 }, recomputed := true }) :=
  ⟨(ttl_cache_semantics 1 2 0 100).1 (by norm_num),
   (ttl_cache_semantics 1 2 0 400).2 (by norm_num)⟩

/-- C10: under a nondecreasing clock (hypotheses `cacheWF`/`≤` relate
each closure state to the time of its last wrapped call), every
remaining-TTL value a `ttl_cache(300)` wrapper returns — and hence
every rounded `*_ttl_remaining` field of `GET /info/json` — lies in
`[0, 300]`, equals exactly 300 immediately after a recomputation, and
the invariant is preserved. -/
theorem info_json_ttl_remaining_bounds (se : SpriteEnv) (ff : Option (Int × Option PyJson))
    (he : HtopEnv) (st : InfoCaches) (tS tF tH nS nF nH : ℚ)
    (hS : cacheWF st.sprite tS) (hF : cacheWF st.fastfetch tF) (hH : cacheWF st.htop tH)
    (htS : tS ≤ nS) (htF : tF ≤ nF) (htH : tH ≤ nH) :
    (0 ≤ (info_json_cache se ff he st nS nF nH).1.sprite_ttl_remaining ∧
      (info_json_cache se ff he st nS nF nH).1.sprite_ttl_remaining ≤ 300) ∧
    (0 ≤ (info_json_cache se ff he st nS nF nH).1.fastfetch_ttl_remaining ∧
      (info_json_cache se ff he st nS nF nH).1.fastfetch_ttl_remaining ≤ 300) ∧
    (0 ≤ (info_json_cache se ff he st nS nF nH).1.htop_ttl_remaining ∧
      (info_json_cache se ff he st nS nF nH).1.htop_ttl_remaining ≤ 300) ∧
    ((ttlStep 300 (get_sprite_info se) st.sprite nS).recomputed = true →
      (info_json_cache se ff he st nS nF nH).1.sprite_ttl_remaining = 300) ∧
    ((ttlStep 300 (get_fastfetch_info ff) st.fastfetch nF).recomputed = true →
      (info_json_cache se ff he st nS nF nH).1.fastfetch_ttl_remaining = 300) ∧
    ((ttlStep 300 (get_htop_data he) st.htop nH).recomputed = true →
      (info_json_cache se ff he st nS nF nH).1.htop_ttl_remaining = 300) ∧
    cacheWF (info_json_cache se ff he st nS nF nH).2.sprite nS ∧
    cacheWF (info_json_cache se ff he st nS nF nH).2.fastfetch nF ∧
    cacheWF (info_json_cache se ff he st nS nF nH).2.htop nH := by
  obtain ⟨hS0, hS1, hS2, hS3⟩ := ttlStep_ttl_bounds (get_sprite_info se) st.sprite tS nS hS htS
  obtain ⟨hF0, hF1, hF2, hF3⟩ := ttlStep_ttl_bounds (get_fastfetch_info ff) st.fastfetch tF nF hF htF
  obtain ⟨hH0, hH1, hH2, hH3⟩ := ttlStep_ttl_bounds (get_htop_data he) st.htop tH nH hH htH
  refine ⟨⟨pyRound1_nonneg hS0, pyRound1_le_300 hS1⟩,
          ⟨pyRound1_nonneg hF0, pyRound1_le_300 hF1⟩,
          ⟨pyRound1_nonneg hH0, pyRound1_le_300 hH1⟩,
          ?_, ?_, ?_, hS3, hF3, hH3⟩
  · intro h
    show pyRound1 (ttlStep 300 (get_sprite_info se) st.sprite nS).ttl = 300
    rw [hS2 h, pyRound1_300]
  · intro h
    show pyRound1 (ttlStep 300 (get_fastfetch_info ff) st.fastfetch nF).ttl = 300
    rw [hF2 h, pyRound1_300]
  · intro h
    show pyRound1 (ttlStep 300 (get_htop_data he) st.htop nH).ttl = 300
    rw [hH2 h, pyRound1_300]

/-- Witness for C10: the first call on the freshly imported module
(empty closure slots, clock at 0). -/
theorem info_json_ttl_remaining_bounds_witness :
    (0 ≤ (info_json_cache ⟨none, none, none, none⟩ none ⟨none, none, none, none, none⟩
        initInfoCaches 0 0 0).1.sprite_ttl_remaining ∧
      (info_json_cache ⟨none, none, none, none⟩ none ⟨none, none, none, none, none⟩
        initInfoCaches 0 0 0).1.sprite_ttl_remaining ≤ 300) ∧
    (0 ≤ (info_json_cache ⟨none, none, none, none⟩ none ⟨none, none, none, none, none⟩
        initInfoCaches 0 0 0).1.fastfetch_ttl_remaining ∧
      (info_json_cache ⟨none, none, none, none⟩ none ⟨none, none, none, none, none⟩
        initInfoCaches 0 0 0).1.fastfetch_ttl_remaining ≤ 300) ∧
    (0 ≤ (info_json_cache ⟨none, none, none, none⟩ none ⟨none, none, none, none, none⟩
        initInfoCaches 0 0 0).1.htop_ttl_remaining ∧
      (info_json_cache ⟨none, none, none, none⟩ none ⟨none, none, none, none, none⟩
        initInfoCaches 0 0 0).1.htop_ttl_remaining ≤ 300) ∧
    ((ttlStep 300 (get_sprite_info ⟨none, none, none, none⟩)
        initInfoCaches.sprite 0).recomputed = true →
      (info_json_cache ⟨none, none, none, none⟩ none ⟨none, none, none, none, none⟩
        initInfoCaches 0 0 0).1.sprite_ttl_remaining = 300) ∧
    ((ttlStep 300 (get_fastfetch_info none) initInfoCaches.fastfetch 0).recomputed = true →
      (info_json_cache ⟨none, none, none, none⟩ none ⟨none, none, none, none, none⟩
        initInfoCaches 0 0 0).1.fastfetch_ttl_remaining = 300) ∧
    ((ttlStep 300 (get_htop_data ⟨none, none, none, none, none⟩)
        initInfoCaches.htop 0).recomputed = true →
      (info_json_cache ⟨none, none, none, none⟩ none ⟨none, none, none, none, none⟩
        initInfoCaches 0 0 0).1.htop_ttl_remaining = 300) ∧
    cacheWF (info_json_cache ⟨none, none, none, none⟩ none ⟨none, none, none, none, none⟩
      initInfoCaches 0 0 0).2.sprite 0 ∧
    cacheWF (info_json_cache ⟨none, none, none, none⟩ none ⟨none, none, none, none, none⟩
      initInfoCaches 0 0 0).2.fastfetch 0 ∧
    cacheWF (info_json_cache ⟨none, none, none, none⟩ none ⟨none, none, none, none, none⟩
      initInfoCaches 0 0 0).2.htop 0 :=
  info_json_ttl_remaining_bounds ⟨none, none, none, none⟩ none ⟨none, none, none, none, none⟩
    initInfoCaches 0 0 0 0 0 0
    (by norm_num [cacheWF, initInfoCaches, initCache])
    (by norm_num [cacheWF, initInfoCaches, initCache])
    (by norm_num [cacheWF, initInfoCaches, initCache])
    le_rfl le_rfl le_rfl

/-- C3: across two `GET /info/json` calls at times `t1 ≤ t2` with no
intervening cache expiry, each `*_ttl_remaining` field is
non-increasing; and on the first call after an expiry-triggered
recomputation the field equals 300 (the model computes the TTL
exactly, so "approximately 300" is exact here). -/
theorem info_json_ttl_monotone (se1 se2 : SpriteEnv) (ff1 ff2 : Option (Int × Option PyJson))
    (he1 he2 : HtopEnv) (st : InfoCaches) (t1 t2 : ℚ) (h12 : t1 ≤ t2) :
    ((t2 ≤ (info_json_cache se1 ff1 he1 st t1 t1 t1).2.sprite.expires →
      (info_json_cache se2 ff2 he2 (info_json_cache se1 ff1 he1 st t1 t1 t1).2
          t2 t2 t2).1.sprite_ttl_remaining ≤
        (info_json_cache se1 ff1 he1 st t1 t1 t1).1.sprite_ttl_remaining) ∧
     (t2 ≤ (info_json_cache se1 ff1 he1 st t1 t1 t1).2.fastfetch.expires →
      (info_json_cache se2 ff2 he2 (info_json_cache se1 ff1 he1 st t1 t1 t1).2
          t2 t2 t2).1.fastfetch_ttl_remaining ≤
        (info_json_cache se1 ff1 he1 st t1 t1 t1).1.fastfetch_ttl_remaining) ∧
     (t2 ≤ (info_json_cache se1 ff1 he1 st t1 t1 t1).2.htop.expires →
      (info_json_cache se2 ff2 he2 (info_json_cache se1 ff1 he1 st t1 t1 t1).2
          t2 t2 t2).1.htop_ttl_remaining ≤
        (info_json_cache se1 ff1 he1 st t1 t1 t1).1.htop_ttl_remaining)) ∧
    (((ttlStep 300 (get_sprite_info se2)
          (info_json_cache se1 ff1 he1 st t1 t1 t1).2.sprite t2).recomputed = true →
      (info_json_cache se2 ff2 he2 (info_json_cache se1 ff1 he1 st t1 t1 t1).2
          t2 t2 t2).1.sprite_ttl_remaining = 300) ∧
     ((ttlStep 300 (get_fastfetch_info ff2)
          (info_json_cache se1 ff1 he1 st t1 t1 t1).2.fastfetch t2).recomputed = true →
      (info_json_cache se2 ff2 he2 (info_json_cache se1 ff1 he1 st t1 t1 t1).2
          t2 t2 t2).1.fastfetch_ttl_remaining = 300) ∧
     ((ttlStep 300 (get_htop_data he2)
          (info_json_cache se1 ff1 he1 st t1 t1 t1).2.htop t2).recomputed = true →
      (info_json_cache se2 ff2 he2 (info_json_cache se1 ff1 he1 st t1 t1 t1).2
          t2 t2 t2).1.htop_ttl_remaining = 300)) := by
  refine ⟨⟨?_, ?_, ?_⟩, ?_, ?_, ?_⟩
  · intro hne
    exact pyRound1_mono (ttlStep_ttl_antitone (get_sprite_info se1) (get_sprite_info se2)
      st.sprite t1 t2 h12 hne)
  · intro hne
    exact pyRound1_mono (ttlStep_ttl_antitone (get_fastfetch_info ff1) (get_fastfetch_info ff2)
      st.fastfetch t1 t2 h12 hne)
  · intro hne
    exact pyRound1_mono (ttlStep_ttl_antitone (get_htop_data he1) (get_htop_data he2)
      st.htop t1 t2 h12 hne)
  · intro h
    show pyRound1 (ttlStep 300 (get_sprite_info se2)
      (info_json_cache se1 ff1 he1 st t1 t1 t1).2.sprite t2).ttl = 300
    rw [ttlStep_recomputed_ttl _ _ _ h, pyRound1_300]
  · intro h
    show pyRound1 (ttlStep 300 (get_fastfetch_info ff2)
      (info_json_cache se1 ff1 he1 st t1 t1 t1).2.fastfetch t2).ttl = 300
    rw [ttlStep_recomputed_ttl _ _ _ h, pyRound1_300]
  · intro h
    show pyRound1 (ttlStep 300 (get_htop_data he2)
      (info_json_cache se1 ff1 he1 st t1 t1 t1).2.htop t2).ttl = 300
    rw [ttlStep_recomputed_ttl _ _ _ h, pyRound1_300]

/-- Witness for C3: first call at time 0 fills the empty caches,
second call at time 100 observes smaller remaining TTLs. -/
theorem info_json_ttl_monotone_witness :
    (info_json_cache ⟨none, none, none, none⟩ none ⟨none, none, none, none, none⟩
        (info_json_cache ⟨none, none, none, none⟩ none ⟨none, none, none, none, none⟩
          initInfoCaches 0 0 0).2 100 100 100).1.sprite_ttl_remaining ≤
      (info_json_cache ⟨none, none, none, none⟩ none ⟨none, none, none, none, none⟩
        initInfoCaches 0 0 0).1.sprite_ttl_remaining ∧
    (info_json_cache ⟨none, none, none, none⟩ none ⟨none, none, none, none, none⟩
        (info_json_cache ⟨none, none, none, none⟩ none ⟨none, none, none, none, none⟩
          initInfoCaches 0 0 0).2 100 100 100).1.fastfetch_ttl_remaining ≤
      (info_json_cache ⟨none, none, none, none⟩ none ⟨none, none, none, none, none⟩
        initInfoCaches 0 0 0).1.fastfetch_ttl_remaining ∧
    (info_json_cache ⟨none, none, none, none⟩ none ⟨none, none, none, none, none⟩
        (info_json_cache ⟨none, none, none, none⟩ none ⟨none, none, none, none, none⟩
          initInfoCaches 0 0 0).2 100 100 100).1.htop_ttl_remaining ≤
      (info_json_cache ⟨none, none, none, none⟩ none ⟨none, none, none, none, none⟩
        initInfoCaches 0 0 0).1.htop_ttl_remaining := by
  have h := info_json_ttl_monotone ⟨none, none, none, none⟩ ⟨none, none, none, none⟩
    none none ⟨none, none, none, none, none⟩ ⟨none, none, none, none, none⟩
    initInfoCaches 0 100 (by norm_num)
  have hexp : ∀ b : ℚ, b = 0 + 300 → (100 : ℚ) ≤ b := by
    intro b hb
    rw [hb]
    norm_num
  exact ⟨h.1.1 (hexp _ rfl), h.1.2.1 (hexp _ rfl), h.1.2.2 (hexp _ rfl)⟩

/-- C7: the `/cron` page shows the registered job's name, schedule,
total runs, last run and next run, and at most the 20 most recent run
records (a prefix of the full history sorted newest-first), each
rendered as a log line. -/
theorem cron_page_display (jobName trigger : String) (st : CronState) (hist : List CronRecord) :
    cronJobCard jobName trigger st =
      { name := jobName, schedule := trigger, runs := st.runs,
        last_run := cronTimeDisplay st.last_run "Never",
        next_run := cronTimeDisplay st.next_run "Unknown" } ∧
    cronDisplayedHistory hist = (cronSortDesc hist).take 20 ∧
    (cronDisplayedHistory hist).length ≤ 20 ∧
    (cronDisplayedHistory hist).Pairwise (fun a b => b.time ≤ a.time) ∧
    (∀ e ∈ cronDisplayedHistory hist, e ∈ hist) ∧
    cronHistoryHtml hist = String.join ((cronDisplayedHistory hist).map
      (fun e => "<div class=\"log-line\">" ++ e.message ++ "</div>")) := by
  refine ⟨rfl, rfl, ?_, ?_, ?_, rfl⟩
  · simp only [cronDisplayedHistory, List.length_take]
    exact Nat.min_le_left 20 _
  · have hs := @List.sorted_mergeSort CronRecord (fun a b => decide (b.time ≤ a.time))
      (fun a b c hab hbc => by
        simp only [decide_eq_true_eq] at *
        exact le_trans hbc hab)
      (fun a b => by
        simp only [Bool.or_eq_true, decide_eq_true_eq]
        exact le_total b.time a.time)
      hist
    have hp := List.Pairwise.sublist (List.take_sublist 20 _) hs
    exact hp.imp (by intro a b hab; exact of_decide_eq_true hab)
  · intro e he
    have h1 : e ∈ cronSortDesc hist := List.take_subset _ _ he
    exact (List.mergeSort_perm hist _).subset h1

theorem get_sprite_info_fields (env : SpriteEnv) :
    get_sprite_info env =
      { version := match env.version_txt with
          | some txt => pyStrip txt
          | none => "unknown"
        services := spriteRunField env.services_run (.arr [])
        checkpoints := spriteRunField env.checkpoints_run (.arr [])
        network_policy := match env.network_policy_file with
          | some (some j) => j
          | _ => .obj [("rules", .arr [])] } := by
  unfold get_sprite_info spriteDefaults
  rcases env.version_txt with _ | txt <;>
    rcases env.network_policy_file with _ | (_ | j) <;>
    simp

theorem htopLoadBlock_uptime_none (la : Option String) (d : HtopData) :
    (htopLoadBlock la none d).uptime = d.uptime := by
  unfold htopLoadBlock
  repeat first
  | (split <;> try simp)
  | simp

/-- C2: whenever a subprocess call or file read fails (the binary is
missing, the call times out, exits nonzero, or its output fails to
parse), `get_sprite_info`, `get_fastfetch_info` and `get_htop_data`
leave the affected field at its default ("unknown", 0, empty
list/dict); the embedded functions are total, so no endpoint crashes. -/
theorem subprocess_failures_default (se : SpriteEnv) (ff : Option (Int × Option PyJson))
    (he : HtopEnv) :
    (se.version_txt = none → (get_sprite_info se).version = "unknown") ∧
    ((∀ rc p, se.services_run = some (rc, p) → rc ≠ 0 ∨ p = none) →
      (get_sprite_info se).services = .arr []) ∧
    ((∀ rc p, se.checkpoints_run = some (rc, p) → rc ≠ 0 ∨ p = none) →
      (get_sprite_info se).checkpoints = .arr []) ∧
    ((∀ j, se.network_policy_file ≠ some (some j)) →
      (get_sprite_info se).network_policy = .obj [("rules", .arr [])]) ∧
    ((∀ rc p, ff = some (rc, p) → rc ≠ 0 ∨ p = none) → get_fastfetch_info ff = []) ∧
    (he.cpu_stat_run = none → (get_htop_data he).cpu_bars = []) ∧
    (he.meminfo_file = none →
      (get_htop_data he).memory = { used := 0, total := 0, pct := 0 } ∧
      (get_htop_data he).swap = { used := 0, total := 0, pct := 0 }) ∧
    (he.loadavg_file = none →
      (get_htop_data he).load_avg = [0, 0, 0] ∧ (get_htop_data he).uptime = "") ∧
    (he.uptime_file = none → (get_htop_data he).uptime = "") ∧
    (he.ps_run = none →
      (get_htop_data he).processes = [] ∧
      (get_htop_data he).tasks = { total := 0, running := 0, sleeping := 0 }) := by
  refine ⟨?_, ?_, ?_, ?_, ?_, ?_, ?_, ?_, ?_, ?_⟩
  · intro h
    rw [get_sprite_info_fields, h]
  · intro hf
    rw [get_sprite_info_fields]
    show spriteRunField se.services_run (.arr []) = .arr []
    rcases h : se.services_run with _ | ⟨rc, p⟩
    · rfl
    · rcases p with _ | j
      · rfl
      · rcases hf rc (some j) h with h2 | h2
        · simp [spriteRunField, h2]
        · simp at h2
  · intro hf
    rw [get_sprite_info_fields]
    show spriteRunField se.checkpoints_run (.arr []) = .arr []
    rcases h : se.checkpoints_run with _ | ⟨rc, p⟩
    · rfl
    · rcases p with _ | j
      · rfl
      · rcases hf rc (some j) h with h2 | h2
        · simp [spriteRunField, h2]
        · simp at h2
  · intro hf
    rw [get_sprite_info_fields]
    rcases h : se.network_policy_file with _ | (_ | j)
    · rfl
    · rfl
    · exact absurd h (hf j)
  · intro hf
    rcases h : ff with _ | ⟨rc, p⟩
    · rfl
    · rcases p with _ | j
      · rfl
      · rcases hf rc (some j) h with h2 | h2
        · simp [get_fastfetch_info, h2]
        · simp at h2
  · intro h
    unfold get_htop_data
    rw [(htopPsBlock_preserves _ _).1, (htopLoadBlock_preserves _ _ _).1,
      (htopMemBlock_preserves _ _).1, h]
    rfl
  · intro h
    unfold get_htop_data
    constructor
    · rw [(htopPsBlock_preserves _ _).2.1, (htopLoadBlock_preserves _ _ _).2.1, h]
      show (htopCpuBlock he.cpu_stat_run htopDefaults).memory = _
      rw [(htopCpuBlock_preserves _ _).1]
      rfl
    · rw [(htopPsBlock_preserves _ _).2.2.1, (htopLoadBlock_preserves _ _ _).2.2.1, h]
      show (htopCpuBlock he.cpu_stat_run htopDefaults).swap = _
      rw [(htopCpuBlock_preserves _ _).2.1]
      rfl
  · intro h
    unfold get_htop_data
    constructor
    · rw [(htopPsBlock_preserves _ _).2.2.2.1, h]
      show (htopMemBlock he.meminfo_file (htopCpuBlock he.cpu_stat_run htopDefaults)).load_avg = _
      rw [(htopMemBlock_preserves _ _).2.2.1, (htopCpuBlock_preserves _ _).2.2.2.1]
      rfl
    · rw [(htopPsBlock_preserves _ _).2.2.2.2, h]
      show (htopMemBlock he.meminfo_file (htopCpuBlock he.cpu_stat_run htopDefaults)).uptime = _
      rw [(htopMemBlock_preserves _ _).2.2.2.1, (htopCpuBlock_preserves _ _).2.2.2.2.1]
      rfl
  · intro h
    unfold get_htop_data
    rw [(htopPsBlock_preserves _ _).2.2.2.2, h, htopLoadBlock_uptime_none,
      (htopMemBlock_preserves _ _).2.2.2.1, (htopCpuBlock_preserves _ _).2.2.2.2.1]
    rfl
  · intro h
    unfold get_htop_data
    rw [h]
    constructor
    · show (htopLoadBlock he.loadavg_file he.uptime_file
        (htopMemBlock he.meminfo_file (htopCpuBlock he.cpu_stat_run htopDefaults))).processes = _
      rw [(htopLoadBlock_preserves _ _ _).2.2.2.2, (htopMemBlock_preserves _ _).2.2.2.2,
        (htopCpuBlock_preserves _ _).2.2.2.2.2]
      rfl
    · show (htopLoadBlock he.loadavg_file he.uptime_file
        (htopMemBlock he.meminfo_file (htopCpuBlock he.cpu_stat_run htopDefaults))).tasks = _
      rw [(htopLoadBlock_preserves _ _ _).2.2.2.1, (htopMemBlock_preserves _ _).2.1,
        (htopCpuBlock_preserves _ _).2.2.1]
      rfl

/-- Witness for C2: with every external read failing (both binaries
absent), all fields are their defaults. -/
theorem subprocess_failures_default_witness :
    (get_sprite_info ⟨none, none, none, none⟩).version = "unknown" ∧
    (get_sprite_info ⟨none, none, none, none⟩).services = .arr [] ∧
    (get_sprite_info ⟨none, none, none, none⟩).checkpoints = .arr [] ∧
    (get_sprite_info ⟨none, none, none, none⟩).network_policy = .obj [("rules", .arr [])] ∧
    get_fastfetch_info none = [] ∧
    (get_htop_data ⟨none, none, none, none, none⟩).cpu_bars = [] ∧
    (get_htop_data ⟨none, none, none, none, none⟩).memory = { used := 0, total := 0, pct := 0 } ∧
    (get_htop_data ⟨none, none, none, none, none⟩).swap = { used := 0, total := 0, pct := 0 } ∧
    (get_htop_data ⟨none, none, none, none, none⟩).load_avg = [0, 0, 0] ∧
    (get_htop_data ⟨none, none, none, none, none⟩).uptime = "" ∧
    (get_htop_data ⟨none, none, none, none, none⟩).processes = [] ∧
    (get_htop_data ⟨none, none, none, none, none⟩).tasks =
      { total := 0, running := 0, sleeping := 0 } := by
  have h := subprocess_failures_default ⟨none, none, none, none⟩ none
    ⟨none, none, none, none, none⟩
  exact ⟨h.1 rfl,
    h.2.1 (fun rc p hc => by cases hc),
    h.2.2.1 (fun rc p hc => by cases hc),
    h.2.2.2.1 (fun j hc => by cases hc),
    h.2.2.2.2.1 (fun rc p hc => by cases hc),
    h.2.2.2.2.2.1 rfl,
    (h.2.2.2.2.2.2.1 rfl).1,
    (h.2.2.2.2.2.2.1 rfl).2,
    (h.2.2.2.2.2.2.2.1 rfl).1,
    (h.2.2.2.2.2.2.2.1 rfl).2,
    (h.2.2.2.2.2.2.2.2.2 rfl).1,
    (h.2.2.2.2.2.2.2.2.2 rfl).2⟩

theorem htopCpuBlock_bars_le (run : Option String) (d : HtopData) (h : d.cpu_bars.length = 0) :
    (htopCpuBlock run d).cpu_bars.length ≤ 8 := by
  unfold htopCpuBlock
  rcases run with _ | stdout
  · simp [h]
  · show (cpuLoop ((cpuLines stdout).take 8).enum d.cpu_bars).length ≤ 8
    have hb := cpuLoop_length ((cpuLines stdout).take 8).enum d.cpu_bars
    have he : ((cpuLines stdout).take 8).enum.length ≤ 8 := by
      rw [List.enum_length, List.length_take]
      exact Nat.min_le_left _ _
    omega

theorem htopPsBlock_procs_le (run : Option String) (d : HtopData)
    (h : d.processes.length ≤ 12) : (htopPsBlock run d).processes.length ≤ 12 := by
  unfold htopPsBlock
  rcases run with _ | stdout
  · simpa using h
  · show (psLoop ((psLines stdout).drop 1) 0 0 d.processes).2.2.length ≤ 12
    exact psLoop_procs_le _ _ _ _ h

/-- C8: for every `/proc/stat` pipeline output and every `ps aux`
output, `get_htop_data` returns at most 8 CPU bars and at most 12
process entries. -/
theorem htop_lists_bounded (env : HtopEnv) :
    (get_htop_data env).cpu_bars.length ≤ 8 ∧ (get_htop_data env).processes.length ≤ 12 := by
  constructor
  · unfold get_htop_data
    rw [(htopPsBlock_preserves _ _).1, (htopLoadBlock_preserves _ _ _).1,
      (htopMemBlock_preserves _ _).1]
    exact htopCpuBlock_bars_le _ _ rfl
  · unfold get_htop_data
    apply htopPsBlock_procs_le
    rw [(htopLoadBlock_preserves _ _ _).2.2.2.2, (htopMemBlock_preserves _ _).2.2.2.2,
      (htopCpuBlock_preserves _ _).2.2.2.2.2]
    simp [htopDefaults]

theorem cpuLineStep_bar_bounds (i : Nat) (line : String) (b : CpuBar)
    (hnn : ∀ j ∈ [1, 2, 3, 4], ∀ v : ℤ, pyInt ((pySplitWs line).getD j "") = some v → 0 ≤ v)
    (hb : cpuLineStep i line = .bar b) : 0 ≤ b.usage ∧ b.usage ≤ 100 := by
  unfold cpuLineStep at hb
  by_cases hlen : (pySplitWs line).length ≥ 5
  · rw [if_pos hlen] at hb
    rcases hu : pyInt ((pySplitWs line).getD 1 "") with _ | u <;> rw [hu] at hb <;>
      rcases hn : pyInt ((pySplitWs line).getD 2 "") with _ | n <;> rw [hn] at hb <;>
      rcases hs : pyInt ((pySplitWs line).getD 3 "") with _ | sv <;> rw [hs] at hb <;>
      rcases hi : pyInt ((pySplitWs line).getD 4 "") with _ | idl <;> rw [hi] at hb <;>
      first
      | exact CpuLineStep.noConfusion hb
      | skip
    have hu0 : 0 ≤ u := hnn 1 (by simp) u hu
    have hn0 : 0 ≤ n := hnn 2 (by simp) n hn
    have hs0 : 0 ≤ sv := hnn 3 (by simp) sv hs
    have hi0 : 0 ≤ idl := hnn 4 (by simp) idl hi
    injection hb with hbe
    subst hbe
    by_cases htz : (u + n + sv + idl : ℤ) = 0
    · simp [htz]
    · simp only [ne_eq, htz, not_false_iff, if_true]
      have htot : (0 : ℚ) < ((u + n + sv + idl : ℤ) : ℚ) := by
        have : (0 : ℤ) < u + n + sv + idl := by omega
        exact_mod_cast this
      have hnum : (0 : ℚ) ≤ ((u + n + sv : ℤ) : ℚ) := by
        have : (0 : ℤ) ≤ u + n + sv := by omega
        exact_mod_cast this
      have h1 : ((u + n + sv : ℤ) : ℚ) / ((u + n + sv + idl : ℤ) : ℚ) ≤ 1 := by
        rw [div_le_one htot]
        have : (u + n + sv : ℤ) ≤ u + n + sv + idl := by omega
        exact_mod_cast this
      constructor
      · exact mul_nonneg (div_nonneg hnum htot.le) (by norm_num)
      · calc ((u + n + sv : ℤ) : ℚ) / ((u + n + sv + idl : ℤ) : ℚ) * 100
            ≤ 1 * 100 := mul_le_mul_of_nonneg_right h1 (by norm_num)
          _ = 100 := by norm_num
  · rw [if_neg hlen] at hb
    exact absurd hb (by simp)

theorem htopMemBlock_pct (f : Option String) (d : HtopData)
    (hdm : d.memory.total = 0 → d.memory.pct = 0)
    (hds : d.swap.total = 0 → d.swap.pct = 0) :
    ((htopMemBlock f d).memory.total = 0 → (htopMemBlock f d).memory.pct = 0) ∧
    ((htopMemBlock f d).swap.total = 0 → (htopMemBlock f d).swap.pct = 0) := by
  unfold htopMemBlock
  split
  · exact ⟨hdm, hds⟩
  · split
    · exact ⟨hdm, hds⟩
    · constructor
      · intro h0
        simp only at h0 ⊢
        simp [h0]
      · intro h0
        simp only at h0 ⊢
        simp [h0]

/-- C9: every division in `get_htop_data` is guarded: whenever the
parsed total is zero the guarded expression yields 0 instead of
dividing, each CPU bar's usage lies in `[0, 100]` for nonnegative
`/proc/stat` counters, and the memory and swap `pct` fields are 0
whenever the corresponding total is 0. -/
theorem htop_divisions_guarded (env : HtopEnv)
    (hnn : ∀ s, env.cpu_stat_run = some s → cpuStatNonneg s = true) :
    (∀ b ∈ (get_htop_data env).cpu_bars, 0 ≤ b.usage ∧ b.usage ≤ 100) ∧
    ((get_htop_data env).memory.total = 0 → (get_htop_data env).memory.pct = 0) ∧
    ((get_htop_data env).swap.total = 0 → (get_htop_data env).swap.pct = 0) ∧
    (∀ (i : Nat) (line : String) (u n sys idl : ℤ),
      (pySplitWs line).length ≥ 5 →
      pyInt ((pySplitWs line).getD 1 "") = some u →
      pyInt ((pySplitWs line).getD 2 "") = some n →
      pyInt ((pySplitWs line).getD 3 "") = some sys →
      pyInt ((pySplitWs line).getD 4 "") = some idl →
      u + n + sys + idl = 0 →
      cpuLineStep i line = .bar { core := i, usage := 0 }) := by
  refine ⟨?_, ?_, ?_, ?_⟩
  · unfold get_htop_data
    rw [(htopPsBlock_preserves _ _).1, (htopLoadBlock_preserves _ _ _).1,
      (htopMemBlock_preserves _ _).1]
    unfold htopCpuBlock
    rcases h : env.cpu_stat_run with _ | stdout
    · simp [htopDefaults]
    · show ∀ b ∈ cpuLoop ((cpuLines stdout).take 8).enum htopDefaults.cpu_bars,
        0 ≤ b.usage ∧ b.usage ≤ 100
      apply cpuLoop_all
      · intro b hb
        simp [htopDefaults] at hb
      · intro i line b hm hbar
        apply cpuLineStep_bar_bounds i line b _ hbar
        intro j hj v hv
        have hline : line ∈ (cpuLines stdout).take 8 := List.snd_mem_of_mem_enum hm
        have hall := hnn stdout h
        unfold cpuStatNonneg at hall
        rw [List.all_eq_true] at hall
        have h2 := hall line hline
        rw [List.all_eq_true] at h2
        have h3 := h2 j hj
        rw [hv] at h3
        simpa using h3
  · unfold get_htop_data
    rw [(htopPsBlock_preserves _ _).2.1, (htopLoadBlock_preserves _ _ _).2.1]
    refine (htopMemBlock_pct _ _ ?_ ?_).1
    · intro h0
      rw [(htopCpuBlock_preserves _ _).1]
      rfl
    · intro h0
      rw [(htopCpuBlock_preserves _ _).2.1]
      rfl
  · unfold get_htop_data
    rw [(htopPsBlock_preserves _ _).2.2.1, (htopLoadBlock_preserves _ _ _).2.2.1]
    refine (htopMemBlock_pct _ _ ?_ ?_).2
    · intro h0
      rw [(htopCpuBlock_preserves _ _).1]
      rfl
    · intro h0
      rw [(htopCpuBlock_preserves _ _).2.1]
      rfl
  · intro i line u n sys idl hlen hu hn hs hi htz
    unfold cpuLineStep
    rw [if_pos hlen, hu, hn, hs, hi]
    simp [htz]

/-- Witness for C9: a concrete two-line `/proc/stat` output with
nonnegative counters. -/
theorem htop_divisions_guarded_witness :
    (∀ b ∈ (get_htop_data
        ⟨some "cpu  2 1 1 4\ncpu0 2 1 1 4", none, none, none, none⟩).cpu_bars,
      0 ≤ b.usage ∧ b.usage ≤ 100) ∧
    ((get_htop_data ⟨some "cpu  2 1 1 4\ncpu0 2 1 1 4", none, none, none, none⟩).memory.total = 0 →
      (get_htop_data ⟨some "cpu  2 1 1 4\ncpu0 2 1 1 4", none, none, none, none⟩).memory.pct = 0) ∧
    ((get_htop_data ⟨some "cpu  2 1 1 4\ncpu0 2 1 1 4", none, none, none, none⟩).swap.total = 0 →
      (get_htop_data ⟨some "cpu  2 1 1 4\ncpu0 2 1 1 4", none, none, none, none⟩).swap.pct = 0) ∧
    (∀ (i : Nat) (line : String) (u n sys idl : ℤ),
      (pySplitWs line).length ≥ 5 →
      pyInt ((pySplitWs line).getD 1 "") = some u →
      pyInt ((pySplitWs line).getD 2 "") = some n →
      pyInt ((pySplitWs line).getD 3 "") = some sys →
      pyInt ((pySplitWs line).getD 4 "") = some idl →
      u + n + sys + idl = 0 →
      cpuLineStep i line = .bar { core := i, usage := 0 }) :=
  htop_divisions_guarded ⟨some "cpu  2 1 1 4\ncpu0 2 1 1 4", none, none, none, none⟩
    (fun s hs => by
      injection hs with hs'
      rw [← hs']
      decide)
